import Mathlib

/-!
Shallow embedding of the core of the coffee-pos-frontend repository:
the cart engine (src/hooks/useCart.ts), the token service and HTTP
pipeline (src/services), and the single-flight refresh interceptor
(src/services/auth.service.ts).  Definitions are translated from the
TypeScript source; theorems settle the spec claims C1-C10.
-/

namespace CoffeePos

/-! ## Cart engine (src/hooks/useCart.ts)

Products are `ProductWithCategory` in the source; the cart operations
read only `id`, `name` and `price`, so only those fields are embedded.
JavaScript numbers on the reachable values here are exact, so prices are
embedded as rationals and quantities as integers. -/

structure Product where
  id : Nat
  name : String
  price : Rat
deriving DecidableEq, Repr

structure CartItem where
  id : Nat
  name : String
  price : Rat
  quantity : Int
deriving DecidableEq, Repr

/-- Storage key for cart data in localStorage (`CART_STORAGE_KEY`). -/
def CART_STORAGE_KEY : String := "shopping_cart"

/-- The `addToCart` callback: looks the product up in the catalog
(no-op when absent), increments the quantity of an existing line, or
appends a fresh line with quantity 1 copied from the catalog entry. -/
def addToCart (products : List Product) (productId : Nat)
    (cart : List CartItem) : List CartItem :=
  match products.find? (fun p => p.id == productId) with
  | none => cart
  | some product =>
    match cart.find? (fun item => item.id == productId) with
    | some _ =>
      cart.map (fun item =>
        if item.id == productId then
          { item with quantity := item.quantity + 1 }
        else item)
    | none =>
      cart ++ [{ id := product.id, name := product.name,
                 price := product.price, quantity := 1 }]

/-- The `decreaseQuantity` callback: no-op when the line is absent,
removes the line when its quantity is 1, otherwise decrements by 1. -/
def decreaseQuantity (productId : Nat) (cart : List CartItem) :
    List CartItem :=
  match cart.find? (fun item => item.id == productId) with
  | none => cart
  | some existingItem =>
    if existingItem.quantity == 1 then
      cart.filter (fun item => item.id != productId)
    else
      cart.map (fun item =>
        if item.id == productId then
          { item with quantity := item.quantity - 1 }
        else item)

structure CartTotals where
  subtotal : Rat
  serviceChargeAmount : Rat
  totalAmount : Rat
deriving DecidableEq, Repr

/-- The `getCartTotals` callback: `cart.reduce((sum, item) =>
sum + item.price * item.quantity, 0)`, then the service charge and the
total.  It reads the cart and its argument only, so it is a function of
them by construction (the purity the spec asserts). -/
def getCartTotals (cart : List CartItem)
    (serviceChargePercentage : Rat) : CartTotals :=
  let subtotal :=
    cart.foldl (fun sum item => sum + item.price * (item.quantity : Rat)) 0
  let serviceChargeAmount := subtotal * serviceChargePercentage / 100
  let totalAmount := subtotal + serviceChargeAmount
  { subtotal := subtotal, serviceChargeAmount := serviceChargeAmount,
    totalAmount := totalAmount }

/-- The `resetCart` callback. -/
def resetCart : List CartItem := []

/-! Cart persistence.  The `useEffect` at useCart.ts:42-48 writes the
cart to the `shopping_cart` slot after every change, removing the slot
when the cart is empty; the `useState` initializer at useCart.ts:31-36
restores from the slot, falling back to the empty cart.  The slot is
modelled as holding the parsed content of the stored JSON string
(`JSON.parse` after `JSON.stringify` on an array of flat records is
lossless and order preserving). -/

/-- The persistence effect (useCart.ts:42-48): the new content of the
storage slot after the cart changed. -/
def persistCart (cart : List CartItem) : Option (List CartItem) :=
  if cart.length = 0 then none else some cart

/-- The `useState` initializer (useCart.ts:31-36): restore the saved
cart, falling back to the empty array. -/
def restoreCart (slot : Option (List CartItem)) : List CartItem :=
  match slot with
  | some savedCart => savedCart
  | none => []

/-! Cart invariant: every line has quantity at least 1, and line
product ids are pairwise distinct. -/

def CartInv (cart : List CartItem) : Prop :=
  (∀ item ∈ cart, 1 ≤ item.quantity) ∧ (cart.map CartItem.id).Nodup

instance (cart : List CartItem) : Decidable (CartInv cart) := by
  unfold CartInv
  exact instDecidableAnd

/-- A cart mutation issued by the UI. -/
inductive CartOp where
  | add (productId : Nat)
  | dec (productId : Nat)
deriving DecidableEq, Repr

def applyCartOp (products : List Product) (cart : List CartItem) :
    CartOp → List CartItem
  | CartOp.add productId => addToCart products productId cart
  | CartOp.dec productId => decreaseQuantity productId cart

def applyCartOps (products : List Product) (ops : List CartOp)
    (cart : List CartItem) : List CartItem :=
  ops.foldl (applyCartOp products) cart

/-! ## Token service (src/services/token.service.ts variants)

`DecodedToken` is the JWT payload shape from src/types/auth.ts.  The
external `jwt-decode` library is a collaborator, not repository code:
the embedding is parametric in a raw decoder `String → Option
DecodedToken` (`none` models the exception `jwt-decode` throws on a
malformed token).  `Math.floor(Date.now() / 1000)` is passed in as the
integer `now`. -/

inductive UserRole where
  | ADMIN
  | CASHIER
deriving DecidableEq, Repr

structure DecodedToken where
  userId : String
  name : String
  username : String
  role : UserRole
  exp : Int
  iat : Int
deriving DecidableEq, Repr

/-- A raw decoder standing for the external `jwt-decode` library:
`none` models the exception thrown on a token that cannot be parsed. -/
def JwtDecoder : Type := String → Option DecodedToken

/-- Fixture instance of the `jwt-decode` collaborator used in concrete
scenarios: decodes two well-formed tokens and fails on everything
else (as `jwt-decode` fails on any string that is not a JWT). -/
def jwtDecodeFixture : JwtDecoder := fun token =>
  if token = "header.payload-exp1030.sig" then
    some { userId := "u1", name := "Admin", username := "admin",
           role := UserRole.ADMIN, exp := 1030, iat := 1000 }
  else if token = "header.payload-exp9999.sig" then
    some { userId := "u2", name := "Cashier", username := "cashier",
           role := UserRole.CASHIER, exp := 9999, iat := 1000 }
  else none

/-- The seconds-before-expiry threshold (`EXPIRY_THRESHOLD = 60`). -/
def EXPIRY_THRESHOLD : Int := 60

/-- The `decodeToken` method: wraps `jwtDecode` in try/catch and
rethrows `Error('Invalid token format')` on failure. -/
def decodeToken (jwtDecode : JwtDecoder) (token : String) :
    Except String DecodedToken :=
  match jwtDecode token with
  | some decoded => Except.ok decoded
  | none => Except.error "Invalid token format"

/-- The try-block of `isTokenExpiringSoon`: decode the token, then test
`decoded.exp - Math.floor(Date.now() / 1000) <= EXPIRY_THRESHOLD`.  An
`Except.error` is the exception escaping the try-block. -/
def isTokenExpiringSoonBody (jwtDecode : JwtDecoder) (token : String)
    (now : Int) : Except String Bool :=
  (decodeToken jwtDecode token).map
    (fun decoded => decide (decoded.exp - now ≤ EXPIRY_THRESHOLD))

/-- The `isTokenExpiringSoon` method of the in-memory `TokenService`
class: `true` when no token is stored; otherwise the try-block result,
with the catch-all returning `true`. -/
def isTokenExpiringSoon (jwtDecode : JwtDecoder)
    (storedToken : Option String) (now : Int) : Bool :=
  match storedToken with
  | none => true
  | some token =>
    match isTokenExpiringSoonBody jwtDecode token now with
    | Except.ok result => result
    | Except.error _ => true

/-! The localStorage variant of the token service keeps the raw token
under `TOKEN_KEY` and the JSON of the decoded payload under
`USER_KEY`; the slot contents are modelled by their parsed values. -/

structure TokenStorage where
  token : Option String
  user : Option DecodedToken
deriving DecidableEq, Repr

/-- The localStorage `setToken`: `localStorage.setItem(TOKEN_KEY,
token)` runs first, then `decodeToken(token)` (which may throw), then
`localStorage.setItem(USER_KEY, JSON.stringify(decoded))`.  The second
component is the exception escaping `setToken`, with the state the
storage was left in. -/
def setToken (jwtDecode : JwtDecoder) (token : String)
    (s : TokenStorage) : TokenStorage × Option String :=
  let afterTokenWrite := { s with token := some token }
  match decodeToken jwtDecode token with
  | Except.error e => (afterTokenWrite, some e)
  | Except.ok decoded =>
    ({ afterTokenWrite with user := some decoded }, none)

/-- The localStorage `clearToken`: removes both slots. -/
def clearToken (s : TokenStorage) : TokenStorage :=
  { s with token := none, user := none }

/-- The spec's session invariant: access token and decoded identity are
both present or both absent. -/
def SessionInv (s : TokenStorage) : Prop :=
  s.token.isSome = s.user.isSome

instance (s : TokenStorage) : Decidable (SessionInv s) := by
  unfold SessionInv
  exact instDecidableEqBool s.token.isSome s.user.isSome

/-! ## HTTP request pipeline (src/services/base/base.service.ts)

The `request` wrapper unwraps `response.data` depending on the request
config and — in its fallback branch — on the body.  Response bodies are
modelled as JavaScript values: primitives carry their truthiness, and
objects are field lists; a missing field is `undefined`, modelled by
`Option`. -/

inductive JsVal where
  | prim (truthy : Bool)
  | obj (fields : List (String × JsVal))

/-- Field access `v[name]`: `none` is JavaScript `undefined`. -/
def JsVal.getField : JsVal → String → Option JsVal
  | JsVal.prim _, _ => none
  | JsVal.obj fields, name =>
    (fields.find? (fun f => f.fst = name)).map Prod.snd

/-- JavaScript truthiness: objects are always truthy. -/
def JsVal.isTruthy : JsVal → Bool
  | JsVal.prim t => t
  | JsVal.obj _ => true

/-- Does `pat` match at the head of `cs`? -/
def headMatches : List Char → List Char → Bool
  | [], _ => true
  | _ :: _, [] => false
  | p :: ps, c :: cs => p == c && headMatches ps cs

/-- Does `pat` occur contiguously anywhere in `cs`? -/
def occursIn (pat : List Char) : List Char → Bool
  | [] => headMatches pat []
  | c :: cs => headMatches pat (c :: cs) || occursIn pat cs

/-- Substring test modelling `String.prototype.includes`. -/
def containsStr (s pat : String) : Bool :=
  occursIn pat.toList s.toList

/-- The response-unwrapping logic of `request` (base.service.ts): the
envelope handling chain over `config.url` / `config.method`, where
`body` is the parsed `response.data` and the result `none` is
JavaScript `undefined` (`response.data.data` on a body without a `data`
field). -/
def unwrapResponse (method url : String) (body : JsVal) : Option JsVal :=
  if containsStr url "login" then
    some body
  else if (containsStr url "users" || containsStr url "categories" ||
           containsStr url "payments") && method == "GET" then
    some body
  else if method == "POST" || method == "PUT" || method == "DELETE" then
    body.getField "data"
  else
    match body.getField "data" with
    | some d => if d.isTruthy then some d else some body
    | none => some body

/-! ## Single-flight refresh interceptor (src/services/auth.service.ts)

The response interceptor, `processQueue`, `refreshToken` and `logout`
are embedded as one step function over an explicit state, driven by the
events the event loop can deliver: a request settling with a 401, and
the in-flight refresh call settling.  The synchronous body of the
interceptor runs without interleaving in the JavaScript event loop, so
each event is one atomic step.  `inFlightRefreshes` counts refresh
calls currently on the network (so that single-flight is a proved
invariant, not a modelling assumption); `logoutRuns` counts completed
executions of `logout`'s side effects (clear token, redirect to the
login surface). -/

/-- The fate of one intercepted request. -/
inductive ReqOutcome where
  | pending
  | resolved (token : String)
  | rejectedRefresh
  | rejectedOriginal
deriving DecidableEq, Repr

structure AuthState where
  isRefreshing : Bool
  failedQueue : List Nat
  originator : Option Nat
  inFlightRefreshes : Nat
  refreshCalls : Nat
  logoutRuns : Nat
  storedToken : Option String
  outcomes : Nat → ReqOutcome

/-- Record the settlement of one request's promise. -/
def setOutcome (f : Nat → ReqOutcome) (rid : Nat) (o : ReqOutcome) :
    Nat → ReqOutcome :=
  fun r => if r = rid then o else f r

/-- The `processQueue` drain: settle every queued continuation with the
one outcome. -/
def drainQueue (queue : List Nat) (o : ReqOutcome)
    (f : Nat → ReqOutcome) : Nat → ReqOutcome :=
  queue.foldl (fun g rid => setOutcome g rid o) f

/-- Settle the continuation of the request that issued the refresh. -/
def settleOriginator (orig : Option Nat) (o : ReqOutcome)
    (f : Nat → ReqOutcome) : Nat → ReqOutcome :=
  match orig with
  | none => f
  | some rid => setOutcome f rid o

/-- An event delivered by the event loop. -/
inductive AuthEvent where
  | recv401 (rid : Nat) (skip retried : Bool)
  | refreshSettled (resp : Option String)
deriving DecidableEq, Repr

/-- The success path of the interceptor once `refreshToken` resolved:
`tokenService.setToken` stored the new token, the original request is
replayed with the new Authorization header, and `processQueue(null,
newToken)` resolves every queued continuation with it. -/
def refreshSuccessStep (s : AuthState) (newToken : String) : AuthState :=
  { s with
    storedToken := some newToken,
    outcomes :=
      settleOriginator s.originator (ReqOutcome.resolved newToken)
        (drainQueue s.failedQueue (ReqOutcome.resolved newToken) s.outcomes),
    failedQueue := [],
    isRefreshing := false,
    inFlightRefreshes := s.inFlightRefreshes - 1,
    originator := none }

/-- The failure path: `processQueue(refreshError, null)` rejects every
queued continuation, `await logout()` runs its side effects once
(clears the stored token and signals the redirect), and the refresh
error is rethrown to the original caller. -/
def refreshFailureStep (s : AuthState) : AuthState :=
  { s with
    outcomes :=
      settleOriginator s.originator ReqOutcome.rejectedRefresh
        (drainQueue s.failedQueue ReqOutcome.rejectedRefresh s.outcomes),
    failedQueue := [],
    storedToken := none,
    logoutRuns := s.logoutRuns + 1,
    isRefreshing := false,
    inFlightRefreshes := s.inFlightRefreshes - 1,
    originator := none }

/-- One atomic step of the interceptor machinery.

For `recv401 rid skip retried`: the guards mirror auth.service.ts —
`skipRefreshToken`/refresh-url requests and already-retried requests
reject with their original error; while `isRefreshing`, the request's
continuation is pushed onto `failedQueue`; otherwise `_retry` is set,
`isRefreshing` becomes true and one `refreshToken()` call goes out.

For `refreshSettled resp`: `resp = some data` is the refresh endpoint
answering with body `data`; `refreshToken` returns `data` when it is
truthy and throws `Invalid refresh token response` otherwise, so an
empty string takes the failure path, as does `resp = none` (network or
HTTP failure).  The event is ignored when no refresh is in flight. -/
def authStep (s : AuthState) : AuthEvent → AuthState
  | AuthEvent.recv401 rid skip retried =>
    if skip then
      { s with outcomes := setOutcome s.outcomes rid ReqOutcome.rejectedOriginal }
    else if retried then
      { s with outcomes := setOutcome s.outcomes rid ReqOutcome.rejectedOriginal }
    else if s.isRefreshing then
      { s with failedQueue := s.failedQueue ++ [rid] }
    else
      { s with
        isRefreshing := true,
        originator := some rid,
        inFlightRefreshes := s.inFlightRefreshes + 1,
        refreshCalls := s.refreshCalls + 1 }
  | AuthEvent.refreshSettled resp =>
    if s.inFlightRefreshes = 0 then s
    else
      match resp with
      | some data =>
        if data == "" then refreshFailureStep s
        else refreshSuccessStep s data
      | none => refreshFailureStep s

/-- The module initial state: no refresh in flight, empty queue, every
request pending. -/
def authInit (storedToken : Option String) : AuthState :=
  { isRefreshing := false, failedQueue := [], originator := none,
    inFlightRefreshes := 0, refreshCalls := 0, logoutRuns := 0,
    storedToken := storedToken, outcomes := fun _ => ReqOutcome.pending }

/-- Run a finite event trace. -/
def runAuth (events : List AuthEvent) (s : AuthState) : AuthState :=
  events.foldl authStep s

/-- The single-flight invariant: at most one refresh call is in flight,
the `isRefreshing` flag tracks it exactly, the originator is recorded
exactly while refreshing, and the queue is empty whenever no refresh is
in flight. -/
def AuthInv (s : AuthState) : Prop :=
  s.inFlightRefreshes ≤ 1 ∧
  (s.isRefreshing = true ↔ s.inFlightRefreshes = 1) ∧
  (s.originator.isSome = true ↔ s.isRefreshing = true) ∧
  (s.isRefreshing = false → s.failedQueue = [])

/-! ## Cart engine lemmas -/

theorem foldl_add_map_sum (g : CartItem → Rat) (l : List CartItem) :
    ∀ a : Rat, l.foldl (fun sum item => sum + g item) a = a + (l.map g).sum := by
  induction l with
  | nil => intro a; simp
  | cons x xs ih =>
    intro a
    rw [List.foldl_cons, ih, List.map_cons, List.sum_cons]
    ring

theorem bump_map_ids (cart : List CartItem) (pid : Nat) :
    ((cart.map fun item =>
        if item.id == pid then { item with quantity := item.quantity + 1 }
        else item).map CartItem.id) = cart.map CartItem.id := by
  rw [List.map_map]
  refine List.map_congr_left ?_
  intro a _
  by_cases h : a.id = pid <;> simp [h]

theorem decr_map_ids (cart : List CartItem) (pid : Nat) :
    ((cart.map fun item =>
        if item.id == pid then { item with quantity := item.quantity - 1 }
        else item).map CartItem.id) = cart.map CartItem.id := by
  rw [List.map_map]
  refine List.map_congr_left ?_
  intro a _
  by_cases h : a.id = pid <;> simp [h]

theorem addToCart_cartInv (products : List Product) (pid : Nat)
    (cart : List CartItem) (h : CartInv cart) :
    CartInv (addToCart products pid cart) := by
  unfold addToCart
  cases hp : products.find? (fun p => p.id == pid) with
  | none => exact h
  | some product =>
    cases hc : cart.find? (fun item => item.id == pid) with
    | some existing =>
      refine ⟨?_, ?_⟩
      · intro it hit
        rw [List.mem_map] at hit
        obtain ⟨a, ha, rfl⟩ := hit
        have h1 : (1 : Int) ≤ a.quantity := h.1 a ha
        by_cases hid : a.id == pid
        · rw [if_pos hid]
          show (1 : Int) ≤ a.quantity + 1
          omega
        · rw [if_neg hid]
          exact h1
      · rw [bump_map_ids]
        exact h.2
    | none =>
      have hprod : product.id = pid := by
        have := List.find?_some hp
        simpa using this
      refine ⟨?_, ?_⟩
      · intro it hit
        rw [List.mem_append] at hit
        cases hit with
        | inl h1 => exact h.1 it h1
        | inr h2 =>
          have : it = { id := product.id, name := product.name,
                        price := product.price, quantity := 1 } := by
            simpa using h2
          rw [this]
      · rw [List.map_append, List.nodup_append]
        refine ⟨h.2, by simp, ?_⟩
        intro a ha hb
        have hb2 : a = product.id := by simpa using hb
        rw [List.mem_map] at ha
        obtain ⟨x, hx, rfl⟩ := ha
        have hnone := List.find?_eq_none.mp hc x hx
        have : x.id ≠ pid := by simpa using hnone
        exact this (by rw [hb2, hprod])

theorem decreaseQuantity_cartInv (pid : Nat) (cart : List CartItem)
    (h : CartInv cart) : CartInv (decreaseQuantity pid cart) := by
  unfold decreaseQuantity
  cases hc : cart.find? (fun item => item.id == pid) with
  | none => exact h
  | some existing =>
    show CartInv (if existing.quantity == 1 then
        cart.filter (fun item => item.id != pid)
      else cart.map (fun item =>
        if item.id == pid then { item with quantity := item.quantity - 1 }
        else item))
    have hmem : existing ∈ cart := List.mem_of_find?_eq_some hc
    have hid : existing.id = pid := by
      have := List.find?_some hc
      simpa using this
    by_cases hq : existing.quantity == 1
    · rw [if_pos hq]
      refine ⟨?_, ?_⟩
      · intro it hit
        exact h.1 it (List.mem_of_mem_filter hit)
      · exact ((List.filter_sublist cart).map CartItem.id).nodup h.2
    · rw [if_neg hq]
      have hne : existing.quantity ≠ 1 := by simpa using hq
      refine ⟨?_, ?_⟩
      · intro it hit
        rw [List.mem_map] at hit
        obtain ⟨a, ha, rfl⟩ := hit
        have h1 : (1 : Int) ≤ a.quantity := h.1 a ha
        by_cases hida : a.id == pid
        · have haid : a.id = pid := by simpa using hida
          have haeq : a = existing :=
            List.inj_on_of_nodup_map h.2 ha hmem (by rw [haid, hid])
          rw [if_pos hida]
          show (1 : Int) ≤ a.quantity - 1
          have : a.quantity ≠ 1 := by rw [haeq]; exact hne
          omega
        · rw [if_neg hida]
          exact h1
      · rw [decr_map_ids]
        exact h.2

theorem applyCartOps_cartInv (products : List Product) (ops : List CartOp) :
    ∀ cart : List CartItem, CartInv cart →
      CartInv (applyCartOps products ops cart) := by
  induction ops with
  | nil => intro cart h; exact h
  | cons op ops ih =>
    intro cart h
    cases op with
    | add pid => exact ih _ (addToCart_cartInv products pid cart h)
    | dec pid => exact ih _ (decreaseQuantity_cartInv pid cart h)

theorem cartInv_nil : CartInv ([] : List CartItem) := by
  refine ⟨?_, ?_⟩ <;> simp

/-- Claim C2: for every cart and every service-charge percent in
[0, 100], `getCartTotals` returns the subtotal Σ unitPrice × quantity,
a service charge of subtotal × percent / 100, and their sum as the
total; it is a function of the cart and the percent only (purity is by
construction of the embedding).  On the cart
{productId 1, price 25000, qty 2}, {productId 2, price 10000, qty 1}
with percent 10 it returns 60000 / 6000 / 66000. -/
theorem getCartTotals_spec :
    (∀ (cart : List CartItem) (pct : Rat), 0 ≤ pct → pct ≤ 100 →
      (getCartTotals cart pct).subtotal
          = (cart.map (fun item => item.price * (item.quantity : Rat))).sum ∧
      (getCartTotals cart pct).serviceChargeAmount
          = (getCartTotals cart pct).subtotal * pct / 100 ∧
      (getCartTotals cart pct).totalAmount
          = (getCartTotals cart pct).subtotal
              + (getCartTotals cart pct).serviceChargeAmount) ∧
    getCartTotals
      [{ id := 1, name := "Espresso", price := 25000, quantity := 2 },
       { id := 2, name := "Latte", price := 10000, quantity := 1 }] 10 =
      { subtotal := 60000, serviceChargeAmount := 6000,
        totalAmount := 66000 } := by
  constructor
  · intro cart pct _ _
    refine ⟨?_, rfl, rfl⟩
    have hdef : (getCartTotals cart pct).subtotal
        = cart.foldl (fun sum item => sum + item.price * (item.quantity : Rat)) 0 :=
      rfl
    rw [hdef, foldl_add_map_sum, zero_add]
  · simp only [getCartTotals, List.foldl]
    norm_num

/-- Witness for C2 at the spec's concrete scenario. -/
theorem getCartTotals_spec_witness :
    (0 : Rat) ≤ 10 ∧ (10 : Rat) ≤ 100 ∧
    (getCartTotals
      [{ id := 1, name := "Espresso", price := 25000, quantity := 2 },
       { id := 2, name := "Latte", price := 10000, quantity := 1 }] 10).subtotal
      = (([{ id := 1, name := "Espresso", price := 25000, quantity := 2 },
            { id := 2, name := "Latte", price := 10000, quantity := 1 }]
            : List CartItem).map
            (fun item => item.price * (item.quantity : Rat))).sum :=
  ⟨by norm_num, by norm_num,
    (getCartTotals_spec.1 _ 10 (by norm_num) (by norm_num)).1⟩

/-- Claim C3: starting from the empty cart, any sequence of `addToCart`
and `decreaseQuantity` calls over any catalog leaves a cart with no
line of quantity ≤ 0 (every quantity is ≥ 1) and no two lines sharing a
`productId`; `decreaseQuantity` removes a quantity-1 line entirely,
decrements any other found line by 1, and is a no-op when no line with
that id exists. -/
theorem cart_ops_invariant :
    (∀ (products : List Product) (ops : List CartOp),
        CartInv (applyCartOps products ops [])) ∧
    (∀ (pid : Nat) (cart : List CartItem),
        cart.find? (fun item => item.id == pid) = none →
        decreaseQuantity pid cart = cart) ∧
    (∀ (pid : Nat) (cart : List CartItem) (e : CartItem),
        cart.find? (fun item => item.id == pid) = some e →
        e.quantity = 1 →
        decreaseQuantity pid cart
          = cart.filter (fun item => item.id != pid)) ∧
    (∀ (pid : Nat) (cart : List CartItem) (e : CartItem),
        cart.find? (fun item => item.id == pid) = some e →
        e.quantity ≠ 1 →
        decreaseQuantity pid cart
          = cart.map (fun item =>
              if item.id == pid then
                { item with quantity := item.quantity - 1 }
              else item)) := by
  refine ⟨?_, ?_, ?_, ?_⟩
  · intro products ops
    exact applyCartOps_cartInv products ops [] cartInv_nil
  · intro pid cart hfind
    unfold decreaseQuantity
    rw [hfind]
  · intro pid cart e hfind hq
    unfold decreaseQuantity
    rw [hfind]
    show (if e.quantity == 1 then cart.filter (fun item => item.id != pid)
      else _) = _
    rw [if_pos (by simpa using hq)]
  · intro pid cart e hfind hq
    unfold decreaseQuantity
    rw [hfind]
    show (if e.quantity == 1 then cart.filter (fun item => item.id != pid)
      else _) = _
    rw [if_neg (by simpa using hq)]

/-- Witness for C3 on concrete carts: a run of add/add/dec over a one
product catalog, a no-op decrease, a removing decrease and a
decrementing decrease. -/
theorem cart_ops_invariant_witness :
    CartInv (applyCartOps [{ id := 1, name := "Espresso", price := 25000 }]
      [CartOp.add 1, CartOp.add 1, CartOp.dec 1] []) ∧
    decreaseQuantity 5 [{ id := 1, name := "Espresso", price := 25000, quantity := 2 }]
      = [{ id := 1, name := "Espresso", price := 25000, quantity := 2 }] ∧
    decreaseQuantity 1 [{ id := 1, name := "Espresso", price := 25000, quantity := 1 }]
      = ([{ id := 1, name := "Espresso", price := 25000, quantity := 1 }]
          : List CartItem).filter (fun item => item.id != 1) ∧
    decreaseQuantity 1 [{ id := 1, name := "Espresso", price := 25000, quantity := 3 }]
      = ([{ id := 1, name := "Espresso", price := 25000, quantity := 3 }]
          : List CartItem).map
          (fun item =>
            if item.id == 1 then { item with quantity := item.quantity - 1 }
            else item) :=
  ⟨cart_ops_invariant.1 _ _,
   cart_ops_invariant.2.1 5 _ (by decide),
   cart_ops_invariant.2.2.1 1 _
     ({ id := 1, name := "Espresso", price := 25000, quantity := 1 } : CartItem)
     (by decide) (by decide),
   cart_ops_invariant.2.2.2 1 _
     ({ id := 1, name := "Espresso", price := 25000, quantity := 3 } : CartItem)
     (by decide) (by decide)⟩

/-- Claim C6: the cart is written to the single storage slot after
every mutation (the persist effect runs on every cart change); storing
then restoring yields the identical ordered line list, and persisting
an empty cart removes the stored record instead of storing an empty
array. -/
theorem cart_persistence_roundtrip :
    (∀ cart : List CartItem, restoreCart (persistCart cart) = cart) ∧
    (∀ cart : List CartItem, cart ≠ [] → persistCart cart = some cart) ∧
    (∀ cart : List CartItem, cart = [] → persistCart cart = none) := by
  refine ⟨?_, ?_, ?_⟩
  · intro cart
    unfold persistCart restoreCart
    by_cases h : cart.length = 0
    · rw [if_pos h]
      exact (List.length_eq_zero.mp h).symm
    · rw [if_neg h]
  · intro cart h
    unfold persistCart
    rw [if_neg (by simpa using h)]
  · intro cart h
    unfold persistCart
    rw [if_pos (by simp [h])]

/-- Witness for C6 on a concrete cart and the empty cart. -/
theorem cart_persistence_roundtrip_witness :
    restoreCart (persistCart
      [{ id := 1, name := "Espresso", price := 25000, quantity := 2 }])
      = [{ id := 1, name := "Espresso", price := 25000, quantity := 2 }] ∧
    persistCart [{ id := 1, name := "Espresso", price := 25000, quantity := 2 }]
      = some [{ id := 1, name := "Espresso", price := 25000, quantity := 2 }] ∧
    persistCart ([] : List CartItem) = none :=
  ⟨cart_persistence_roundtrip.1 _,
   cart_persistence_roundtrip.2.1 _ (by decide),
   cart_persistence_roundtrip.2.2 [] rfl⟩

/-- Claim C9: `addToCart` with a productId absent from the catalog is a
silent no-op — it is total (no exception is modelled because none can
be raised: `products.find` simply returns `undefined`), leaves the cart
unchanged and hence leaves the persisted record unchanged. -/
theorem addToCart_unknown_noop :
    ∀ (products : List Product) (pid : Nat) (cart : List CartItem),
      (∀ p ∈ products, p.id ≠ pid) →
      addToCart products pid cart = cart ∧
      persistCart (addToCart products pid cart) = persistCart cart := by
  intro products pid cart habs
  have hfind : products.find? (fun p => p.id == pid) = none := by
    rw [List.find?_eq_none]
    intro p hp
    simpa using habs p hp
  have hnoop : addToCart products pid cart = cart := by
    unfold addToCart
    rw [hfind]
  exact ⟨hnoop, by rw [hnoop]⟩

/-- Witness for C9: a two-product catalog without product 7. -/
theorem addToCart_unknown_noop_witness :
    addToCart
      [{ id := 1, name := "Espresso", price := 25000 },
       { id := 2, name := "Latte", price := 10000 }] 7
      [{ id := 1, name := "Espresso", price := 25000, quantity := 1 }]
      = [{ id := 1, name := "Espresso", price := 25000, quantity := 1 }] ∧
    persistCart (addToCart
      [{ id := 1, name := "Espresso", price := 25000 },
       { id := 2, name := "Latte", price := 10000 }] 7
      [{ id := 1, name := "Espresso", price := 25000, quantity := 1 }])
      = persistCart
          [{ id := 1, name := "Espresso", price := 25000, quantity := 1 }] :=
  addToCart_unknown_noop _ 7 _ (by decide)

/-! ## Token service theorems -/

/-- Claim C5 counterexample: from the empty session (which satisfies
the invariant), `setToken` on a token the decoder rejects stores the
token and then throws before storing the identity, leaving the access
token present and the identity absent — the claimed invariant fails
after this operation. -/
theorem setToken_invariant_counterexample :
    SessionInv { token := none, user := none } ∧
    ¬ SessionInv (setToken jwtDecodeFixture "garbage"
        { token := none, user := none }).1 := by
  exact ⟨by decide, by decide⟩

/-- Claim C5 amended: after `clearToken`, and after a `setToken` whose
token the decoder accepts, the stored access token and the stored
decoded identity are both present or both absent; a `setToken` on a
token that fails to decode writes the token slot first and throws
`Invalid token format` before writing the identity slot, leaving the
token present and the identity as it was. -/
theorem setToken_clearToken_invariant :
    (∀ s : TokenStorage, SessionInv (clearToken s)) ∧
    (∀ (jd : JwtDecoder) (tok : String) (s : TokenStorage)
        (d : DecodedToken), jd tok = some d →
        SessionInv (setToken jd tok s).1) ∧
    (∀ (jd : JwtDecoder) (tok : String) (s : TokenStorage),
        jd tok = none →
        (setToken jd tok s).1.token = some tok ∧
        (setToken jd tok s).1.user = s.user ∧
        (setToken jd tok s).2 = some "Invalid token format") := by
  refine ⟨?_, ?_, ?_⟩
  · intro s
    simp [clearToken, SessionInv]
  · intro jd tok s d h
    simp [setToken, decodeToken, h, SessionInv]
  · intro jd tok s h
    simp [setToken, decodeToken, h]

/-- Witness for the amended C5: the fixture decoder accepting one token
and rejecting another. -/
theorem setToken_clearToken_invariant_witness :
    SessionInv (clearToken { token := some "x", user := none }) ∧
    SessionInv (setToken jwtDecodeFixture "header.payload-exp1030.sig"
      { token := none, user := none }).1 ∧
    (setToken jwtDecodeFixture "garbage"
      { token := none, user := none }).1.token = some "garbage" :=
  ⟨setToken_clearToken_invariant.1 _,
   setToken_clearToken_invariant.2.1 jwtDecodeFixture _ _
     ({ userId := "u1", name := "Admin", username := "admin",
        role := UserRole.ADMIN, exp := 1030, iat := 1000 } : DecodedToken)
     (by decide),
   (setToken_clearToken_invariant.2.2 jwtDecodeFixture "garbage"
     { token := none, user := none } (by decide)).1⟩

/-- Claim C7: `isTokenExpiringSoon` returns true when no token is
stored, and for a stored token the decoder accepts with payload `d` it
returns true exactly when `d.exp` minus the current time is at most the
60-second threshold; in particular a token whose exp lies 30 seconds in
the future yields true immediately. -/
theorem isTokenExpiringSoon_spec :
    (∀ (jd : JwtDecoder) (now : Int),
        isTokenExpiringSoon jd none now = true) ∧
    (∀ (jd : JwtDecoder) (tok : String) (d : DecodedToken) (now : Int),
        jd tok = some d →
        (isTokenExpiringSoon jd (some tok) now = true
          ↔ d.exp - now ≤ EXPIRY_THRESHOLD)) ∧
    isTokenExpiringSoon jwtDecodeFixture
      (some "header.payload-exp1030.sig") 1000 = true := by
  refine ⟨?_, ?_, by decide⟩
  · intro jd now
    rfl
  · intro jd tok d now h
    simp [isTokenExpiringSoon, isTokenExpiringSoonBody, decodeToken, h,
      Except.map]

/-- Witness for C7: the fixture token expiring 8999 seconds after the
current instant, for which the iff decides the threshold test. -/
theorem isTokenExpiringSoon_spec_witness :
    isTokenExpiringSoon jwtDecodeFixture
      (some "header.payload-exp9999.sig") 1000 = true
      ↔ (9999 : Int) - 1000 ≤ EXPIRY_THRESHOLD :=
  isTokenExpiringSoon_spec.2.1 jwtDecodeFixture "header.payload-exp9999.sig"
    ({ userId := "u2", name := "Cashier", username := "cashier",
       role := UserRole.CASHIER, exp := 9999, iat := 1000 } : DecodedToken)
    1000 (by decide)

/-- Claim C10: `isTokenExpiringSoon` is total over the stored-token
state — it returns a boolean for every stored token (the embedding
gives it return type `Bool`, mirroring that the decode exception never
escapes), and on a token the decoder rejects the try-block raises
`Invalid token format`, the catch swallows it and the method returns
true. -/
theorem isTokenExpiringSoon_total :
    (∀ (jd : JwtDecoder) (tok : String) (now : Int),
        jd tok = none →
        isTokenExpiringSoonBody jd tok now
            = Except.error "Invalid token format" ∧
        isTokenExpiringSoon jd (some tok) now = true) ∧
    (∀ (jd : JwtDecoder) (st : Option String) (now : Int),
        isTokenExpiringSoon jd st now = true
          ∨ isTokenExpiringSoon jd st now = false) := by
  refine ⟨?_, ?_⟩
  · intro jd tok now h
    refine ⟨?_, ?_⟩
    · simp [isTokenExpiringSoonBody, decodeToken, h, Except.map]
    · simp [isTokenExpiringSoon, isTokenExpiringSoonBody, decodeToken, h,
        Except.map]
  · intro jd st now
    cases hb : isTokenExpiringSoon jd st now
    · right; rfl
    · left; rfl

/-- Witness for C10: the fixture decoder rejects the literal string
`garbage` and the method returns true on it. -/
theorem isTokenExpiringSoon_total_witness :
    isTokenExpiringSoonBody jwtDecodeFixture "garbage" 0
        = Except.error "Invalid token format" ∧
    isTokenExpiringSoon jwtDecodeFixture (some "garbage") 0 = true :=
  isTokenExpiringSoon_total.1 jwtDecodeFixture "garbage" 0 (by decide)

/-! ## HTTP pipeline theorems -/

/-- Claim C4 counterexample: a GET to the products list endpoint — a
list endpoint whose path contains none of `users`, `categories`,
`payments` — falls into the fallback `response.data.data ||
response.data`.  On the standard list envelope it returns the inner
`data` array, not the raw envelope, and on a body without a truthy
`data` field it returns the whole body: the chosen unwrap inspects the
body's shape, and a list GET does not return the raw envelope. -/
theorem unwrapResponse_counterexample :
    unwrapResponse "GET" "/api/products"
        (JsVal.obj [("data", JsVal.prim true), ("paging", JsVal.prim true)])
      = some (JsVal.prim true) ∧
    unwrapResponse "GET" "/api/products"
        (JsVal.obj [("data", JsVal.prim true), ("paging", JsVal.prim true)])
      ≠ some (JsVal.obj [("data", JsVal.prim true),
              ("paging", JsVal.prim true)]) ∧
    unwrapResponse "GET" "/api/products"
        (JsVal.obj [("paging", JsVal.prim true)])
      = some (JsVal.obj [("paging", JsVal.prim true)]) := by
  refine ⟨rfl, ?_, rfl⟩
  intro h
  rw [show unwrapResponse "GET" "/api/products"
      (JsVal.obj [("data", JsVal.prim true), ("paging", JsVal.prim true)])
      = some (JsVal.prim true) from rfl] at h
  simp at h

/-- Claim C4 amended: the unwrap is chosen by method and path for login
requests and for GETs to paths naming `users`, `categories` or
`payments` (raw envelope) and for `POST`/`PUT`/`DELETE` mutations
(inner `data` payload); every other request — GET list endpoints such
as products included — takes the fallback `response.data.data ||
response.data`, which does inspect the body shape. -/
theorem unwrapResponse_rule :
    (∀ (method url : String) (body : JsVal),
        containsStr url "login" = true →
        unwrapResponse method url body = some body) ∧
    (∀ (url : String) (body : JsVal),
        containsStr url "login" = false →
        (containsStr url "users" || containsStr url "categories" ||
          containsStr url "payments") = true →
        unwrapResponse "GET" url body = some body) ∧
    (∀ (method url : String) (body : JsVal),
        containsStr url "login" = false →
        (method = "POST" ∨ method = "PUT" ∨ method = "DELETE") →
        unwrapResponse method url body = body.getField "data") ∧
    (∀ (method url : String) (body : JsVal),
        containsStr url "login" = false →
        ((containsStr url "users" || containsStr url "categories" ||
          containsStr url "payments") && (method == "GET")) = false →
        (method == "POST" || method == "PUT" || method == "DELETE")
            = false →
        unwrapResponse method url body
          = match body.getField "data" with
            | some d => if d.isTruthy then some d else some body
            | none => some body) := by
  refine ⟨?_, ?_, ?_, ?_⟩
  · intro method url body h
    simp [unwrapResponse, h]
  · intro url body h1 h2
    simp [unwrapResponse, h1, h2]
  · intro method url body h1 hm
    have hPG : (("POST" : String) == "GET") = false := by decide
    have hUG : (("PUT" : String) == "GET") = false := by decide
    have hDG : (("DELETE" : String) == "GET") = false := by decide
    rcases hm with rfl | rfl | rfl
    · simp [unwrapResponse, h1, hPG]
    · simp [unwrapResponse, h1, hUG]
    · simp [unwrapResponse, h1, hDG]
  · intro method url body h1 h2 h3
    simp only [unwrapResponse, h1, h2, h3, Bool.false_eq_true, if_false]

/-- Witness for the amended C4 at one concrete request per branch. -/
theorem unwrapResponse_rule_witness :
    unwrapResponse "POST" "api/users/login"
        (JsVal.obj [("data", JsVal.prim true)])
      = some (JsVal.obj [("data", JsVal.prim true)]) ∧
    unwrapResponse "GET" "/api/users?size=10"
        (JsVal.obj [("data", JsVal.prim true)])
      = some (JsVal.obj [("data", JsVal.prim true)]) ∧
    unwrapResponse "DELETE" "/api/products/3"
        (JsVal.obj [("data", JsVal.prim true)])
      = (JsVal.obj [("data", JsVal.prim true)]).getField "data" ∧
    unwrapResponse "GET" "/api/products"
        (JsVal.obj [("data", JsVal.prim true)])
      = match (JsVal.obj [("data", JsVal.prim true)]).getField "data" with
        | some d => if d.isTruthy then some d
                    else some (JsVal.obj [("data", JsVal.prim true)])
        | none => some (JsVal.obj [("data", JsVal.prim true)]) :=
  ⟨unwrapResponse_rule.1 "POST" "api/users/login" _ (by decide),
   unwrapResponse_rule.2.1 "/api/users?size=10" _ (by decide) (by decide),
   unwrapResponse_rule.2.2.1 "DELETE" "/api/products/3" _ (by decide)
     (Or.inr (Or.inr rfl)),
   unwrapResponse_rule.2.2.2 "GET" "/api/products" _ (by decide) (by decide)
     (by decide)⟩

/-! ## Single-flight refresh theorems -/

theorem setOutcome_self (f : Nat → ReqOutcome) (rid : Nat) (o : ReqOutcome) :
    setOutcome f rid o rid = o := by
  simp [setOutcome]

theorem setOutcome_ne (f : Nat → ReqOutcome) (rid r : Nat) (o : ReqOutcome)
    (h : r ≠ rid) : setOutcome f rid o r = f r := by
  simp [setOutcome, h]

theorem drainQueue_not_mem (o : ReqOutcome) (rid : Nat) :
    ∀ (queue : List Nat) (f : Nat → ReqOutcome), rid ∉ queue →
      drainQueue queue o f rid = f rid := by
  intro queue
  induction queue with
  | nil => intro f _; rfl
  | cons q qs ih =>
    intro f h
    rw [List.mem_cons, not_or] at h
    show drainQueue qs o (setOutcome f q o) rid = f rid
    rw [ih _ h.2, setOutcome_ne _ _ _ _ h.1]

theorem drainQueue_mem (o : ReqOutcome) (rid : Nat) :
    ∀ (queue : List Nat) (f : Nat → ReqOutcome), rid ∈ queue →
      drainQueue queue o f rid = o := by
  intro queue
  induction queue with
  | nil => intro f h; cases h
  | cons q qs ih =>
    intro f h
    show drainQueue qs o (setOutcome f q o) rid = o
    by_cases hq : rid ∈ qs
    · exact ih _ hq
    · have hrq : rid = q := by
        rcases List.mem_cons.mp h with h1 | h2
        · exact h1
        · exact absurd h2 hq
      rw [drainQueue_not_mem o rid qs _ hq, hrq, setOutcome_self]

theorem settleDrain_mem (orig : Option Nat) (o : ReqOutcome)
    (queue : List Nat) (f : Nat → ReqOutcome) (rid : Nat)
    (h : rid ∈ queue) :
    settleOriginator orig o (drainQueue queue o f) rid = o := by
  cases orig with
  | none => exact drainQueue_mem o rid queue f h
  | some j =>
    by_cases hj : rid = j
    · rw [hj]
      exact setOutcome_self _ _ _
    · show setOutcome (drainQueue queue o f) j o rid = o
      rw [setOutcome_ne _ _ _ _ hj]
      exact drainQueue_mem o rid queue f h

theorem refreshFailureStep_authInv (s : AuthState)
    (h1 : s.inFlightRefreshes ≤ 1) : AuthInv (refreshFailureStep s) := by
  simp [AuthInv, refreshFailureStep]
  omega

theorem refreshSuccessStep_authInv (s : AuthState) (data : String)
    (h1 : s.inFlightRefreshes ≤ 1) :
    AuthInv (refreshSuccessStep s data) := by
  simp [AuthInv, refreshSuccessStep]
  omega

theorem authStep_authInv (s : AuthState) (e : AuthEvent) (h : AuthInv s) :
    AuthInv (authStep s e) := by
  obtain ⟨h1, h2, h3, h4⟩ := h
  cases e with
  | recv401 rid skip retried =>
    cases skip with
    | true => exact ⟨h1, h2, h3, h4⟩
    | false =>
      cases retried with
      | true => exact ⟨h1, h2, h3, h4⟩
      | false =>
        have hfa : ¬((false : Bool) = true) := Bool.false_ne_true
        simp only [authStep]
        rw [if_neg hfa, if_neg hfa]
        by_cases hr : s.isRefreshing = true
        · rw [if_pos hr]
          refine ⟨h1, h2, h3, ?_⟩
          intro hf
          rw [hf] at hr
          cases hr
        · rw [if_neg hr]
          have hne1 : s.inFlightRefreshes ≠ 1 := fun hq => hr (h2.mpr hq)
          have h0 : s.inFlightRefreshes = 0 := by omega
          have htf : (true : Bool) ≠ false := by decide
          refine ⟨?_, ?_, by simp, fun hf => absurd hf htf⟩
          · show s.inFlightRefreshes + 1 ≤ 1
            omega
          · show (true = true ↔ s.inFlightRefreshes + 1 = 1)
            simp [h0]
  | refreshSettled resp =>
    by_cases hz : s.inFlightRefreshes = 0
    · simp only [authStep]
      rw [if_pos hz]
      exact ⟨h1, h2, h3, h4⟩
    · cases resp with
      | none =>
        simp only [authStep]
        rw [if_neg hz]
        exact refreshFailureStep_authInv s h1
      | some data =>
        simp only [authStep]
        rw [if_neg hz]
        by_cases hd : (data == "") = true
        · rw [if_pos hd]
          exact refreshFailureStep_authInv s h1
        · rw [if_neg hd]
          exact refreshSuccessStep_authInv s data h1

theorem authInit_authInv (tok : Option String) : AuthInv (authInit tok) := by
  refine ⟨by simp [authInit], by simp [authInit], by simp [authInit],
    fun _ => rfl⟩

theorem runAuth_authInv (events : List AuthEvent) :
    ∀ s : AuthState, AuthInv s → AuthInv (runAuth events s) := by
  induction events with
  | nil => intro s h; exact h
  | cons e es ih => intro s h; exact ih _ (authStep_authInv s e h)

/-- Claim C1: in every reachable state at most one refresh call is in
flight; a 401 arriving for a fresh request while a refresh is in
progress issues no second refresh call and appends the request's
continuation to the queue; when the in-flight refresh settles, every
queued continuation receives that single outcome — all resolved with
the same new token on success, all rejected on failure — and the
in-flight flag is cleared on success and failure alike. -/
theorem single_flight_refresh :
    (∀ (events : List AuthEvent) (tok : Option String),
        (runAuth events (authInit tok)).inFlightRefreshes ≤ 1) ∧
    (∀ (s : AuthState) (rid : Nat), s.isRefreshing = true →
        (authStep s (AuthEvent.recv401 rid false false)).refreshCalls
            = s.refreshCalls ∧
        (authStep s (AuthEvent.recv401 rid false false)).inFlightRefreshes
            = s.inFlightRefreshes ∧
        (authStep s (AuthEvent.recv401 rid false false)).failedQueue
            = s.failedQueue ++ [rid]) ∧
    (∀ (s : AuthState) (newToken : String) (rid : Nat),
        s.inFlightRefreshes ≠ 0 → (newToken == "") = false →
        rid ∈ s.failedQueue →
        (authStep s (AuthEvent.refreshSettled (some newToken))).outcomes rid
            = ReqOutcome.resolved newToken) ∧
    (∀ (s : AuthState) (rid : Nat),
        s.inFlightRefreshes ≠ 0 → rid ∈ s.failedQueue →
        (authStep s (AuthEvent.refreshSettled none)).outcomes rid
            = ReqOutcome.rejectedRefresh) ∧
    (∀ (s : AuthState) (resp : Option String),
        s.inFlightRefreshes ≠ 0 →
        (authStep s (AuthEvent.refreshSettled resp)).isRefreshing
            = false) := by
  have hfa : ¬((false : Bool) = true) := Bool.false_ne_true
  refine ⟨?_, ?_, ?_, ?_, ?_⟩
  · intro events tok
    exact (runAuth_authInv events (authInit tok) (authInit_authInv tok)).1
  · intro s rid hr
    simp only [authStep]
    rw [if_neg hfa, if_neg hfa, if_pos hr]
    exact ⟨rfl, rfl, rfl⟩
  · intro s newToken rid hz hnt hmem
    have hcond : ¬((newToken == "") = true) := by
      rw [hnt]
      exact Bool.false_ne_true
    simp only [authStep]
    rw [if_neg hz, if_neg hcond]
    exact settleDrain_mem _ _ _ _ _ hmem
  · intro s rid hz hmem
    simp only [authStep]
    rw [if_neg hz]
    exact settleDrain_mem _ _ _ _ _ hmem
  · intro s resp hz
    cases resp with
    | none =>
      simp only [authStep]
      rw [if_neg hz]
      rfl
    | some data =>
      simp only [authStep]
      rw [if_neg hz]
      by_cases hd : (data == "") = true
      · rw [if_pos hd]
        rfl
      · rw [if_neg hd]
        rfl

/-- Witness for C1: a trace where request 1 starts the refresh and
request 2 is queued, then each settle variant. -/
theorem single_flight_refresh_witness :
    (runAuth [AuthEvent.recv401 1 false false, AuthEvent.recv401 2 false false]
        (authInit none)).inFlightRefreshes ≤ 1 ∧
    (authStep
        (runAuth [AuthEvent.recv401 1 false false,
                  AuthEvent.recv401 2 false false] (authInit none))
        (AuthEvent.recv401 3 false false)).failedQueue
      = (runAuth [AuthEvent.recv401 1 false false,
                  AuthEvent.recv401 2 false false]
          (authInit none)).failedQueue ++ [3] ∧
    (authStep
        (runAuth [AuthEvent.recv401 1 false false,
                  AuthEvent.recv401 2 false false] (authInit none))
        (AuthEvent.refreshSettled (some "tok2"))).outcomes 2
      = ReqOutcome.resolved "tok2" ∧
    (authStep
        (runAuth [AuthEvent.recv401 1 false false,
                  AuthEvent.recv401 2 false false] (authInit none))
        (AuthEvent.refreshSettled none)).outcomes 2
      = ReqOutcome.rejectedRefresh ∧
    (authStep
        (runAuth [AuthEvent.recv401 1 false false,
                  AuthEvent.recv401 2 false false] (authInit none))
        (AuthEvent.refreshSettled (some "tok2"))).isRefreshing = false :=
  ⟨single_flight_refresh.1 _ none,
   (single_flight_refresh.2.1 _ 3 (by decide)).2.2,
   single_flight_refresh.2.2.1 _ "tok2" 2 (by decide) (by decide) (by decide),
   single_flight_refresh.2.2.2.1 _ 2 (by decide) (by decide),
   single_flight_refresh.2.2.2.2 _ (some "tok2") (by decide)⟩

/-- Claim C8: when the in-flight refresh fails, every queued
continuation is rejected with the refresh error, the refresh error is
propagated to the request that issued the refresh, and the logout side
effects — clearing the stored token and signalling the redirect — run
exactly once (`logoutRuns` grows by exactly 1, whatever the queue
length), with the queue drained empty. -/
theorem refresh_failure_logout_once :
    ∀ (s : AuthState) (orig : Nat),
      s.inFlightRefreshes ≠ 0 → s.originator = some orig →
      (∀ rid ∈ s.failedQueue,
        (authStep s (AuthEvent.refreshSettled none)).outcomes rid
          = ReqOutcome.rejectedRefresh) ∧
      (authStep s (AuthEvent.refreshSettled none)).outcomes orig
          = ReqOutcome.rejectedRefresh ∧
      (authStep s (AuthEvent.refreshSettled none)).logoutRuns
          = s.logoutRuns + 1 ∧
      (authStep s (AuthEvent.refreshSettled none)).storedToken = none ∧
      (authStep s (AuthEvent.refreshSettled none)).failedQueue = [] := by
  intro s orig hz horig
  have hstep : authStep s (AuthEvent.refreshSettled none)
      = refreshFailureStep s := by
    simp only [authStep]
    rw [if_neg hz]
  rw [hstep]
  refine ⟨?_, ?_, rfl, rfl, rfl⟩
  · intro rid hm
    exact settleDrain_mem _ _ _ _ _ hm
  · have houtc : (refreshFailureStep s).outcomes
        = settleOriginator s.originator ReqOutcome.rejectedRefresh
            (drainQueue s.failedQueue ReqOutcome.rejectedRefresh s.outcomes) :=
      rfl
    rw [houtc, horig]
    exact setOutcome_self _ _ _

/-- Witness for C8: three requests queued behind the refresh that
request 1 issued; the failing settle rejects all four and runs logout
exactly once. -/
theorem refresh_failure_logout_once_witness :
    (authStep
        (runAuth [AuthEvent.recv401 1 false false,
                  AuthEvent.recv401 2 false false,
                  AuthEvent.recv401 3 false false,
                  AuthEvent.recv401 4 false false] (authInit none))
        (AuthEvent.refreshSettled none)).outcomes 2
      = ReqOutcome.rejectedRefresh ∧
    (authStep
        (runAuth [AuthEvent.recv401 1 false false,
                  AuthEvent.recv401 2 false false,
                  AuthEvent.recv401 3 false false,
                  AuthEvent.recv401 4 false false] (authInit none))
        (AuthEvent.refreshSettled none)).outcomes 3
      = ReqOutcome.rejectedRefresh ∧
    (authStep
        (runAuth [AuthEvent.recv401 1 false false,
                  AuthEvent.recv401 2 false false,
                  AuthEvent.recv401 3 false false,
                  AuthEvent.recv401 4 false false] (authInit none))
        (AuthEvent.refreshSettled none)).outcomes 4
      = ReqOutcome.rejectedRefresh ∧
    (authStep
        (runAuth [AuthEvent.recv401 1 false false,
                  AuthEvent.recv401 2 false false,
                  AuthEvent.recv401 3 false false,
                  AuthEvent.recv401 4 false false] (authInit none))
        (AuthEvent.refreshSettled none)).outcomes 1
      = ReqOutcome.rejectedRefresh ∧
    (authStep
        (runAuth [AuthEvent.recv401 1 false false,
                  AuthEvent.recv401 2 false false,
                  AuthEvent.recv401 3 false false,
                  AuthEvent.recv401 4 false false] (authInit none))
        (AuthEvent.refreshSettled none)).logoutRuns
      = (runAuth [AuthEvent.recv401 1 false false,
                  AuthEvent.recv401 2 false false,
                  AuthEvent.recv401 3 false false,
                  AuthEvent.recv401 4 false false]
          (authInit none)).logoutRuns + 1 ∧
    (authStep
        (runAuth [AuthEvent.recv401 1 false false,
                  AuthEvent.recv401 2 false false,
                  AuthEvent.recv401 3 false false,
                  AuthEvent.recv401 4 false false] (authInit none))
        (AuthEvent.refreshSettled none)).storedToken = none ∧
    (authStep
        (runAuth [AuthEvent.recv401 1 false false,
                  AuthEvent.recv401 2 false false,
                  AuthEvent.recv401 3 false false,
                  AuthEvent.recv401 4 false false] (authInit none))
        (AuthEvent.refreshSettled none)).failedQueue = [] := by
  have H := refresh_failure_logout_once
    (runAuth [AuthEvent.recv401 1 false false,
              AuthEvent.recv401 2 false false,
              AuthEvent.recv401 3 false false,
              AuthEvent.recv401 4 false false] (authInit none))
    1 (by decide) (by decide)
  exact ⟨H.1 2 (by decide), H.1 3 (by decide), H.1 4 (by decide),
    H.2.1, H.2.2.1, H.2.2.2.1, H.2.2.2.2⟩

end CoffeePos
